/-
  Verification of the LawnConnect backend booking lifecycle, authorization
  gate and token issuer.

  Shallow embedding of:
  - internal/core/services/booking.go  (booking lifecycle service)
  - internal/core/services/auth.go     (token issuance inside Login)
  - the auth/role middleware and the booking/auth HTTP handlers
  - internal/core/domain Booking document

  MongoDB ObjectIDs are modelled as naturals, with 0 standing for
  primitive.NilObjectID.  Timestamps are naturals (an abstract clock; every
  operation receives the current instant explicitly).  float64 prices are
  modelled as rationals: the only price operations in the code are the
  comparison with 0 and storing the value, and on real-valued (non-NaN)
  float64 inputs those agree with the rational order.  bson `$set` updates
  are modelled as Lean record updates of exactly the listed fields.
-/
import Mathlib

abbrev ObjectID := Nat

def NilObjectID : ObjectID := 0

/-- The booking document, from `internal/core/domain` (`Booking` struct).
Fields not touched by any lifecycle operation and not named by the claims
(rating, comments, proof of completion, ...) are omitted. -/
structure Booking where
  ID : ObjectID
  CustomerID : ObjectID
  MowerID : ObjectID
  Date : String
  Time : String
  Address : String
  Description : String
  Status : String
  Price : ℚ
  BillingStatus : String
  AcceptedTime : Option Nat
  CompletedTime : Option Nat
  CreatedAt : Nat
  UpdatedAt : Nat
deriving DecidableEq, Repr

/-- The distinct error returns of the booking service and handlers.
`notPendingAccept` / `notPendingReject` are the plain `errors.New` returns of
AcceptBooking / RejectBooking; the others are `apperror.CustomError` values,
distinguished here by their message. `invalidPrice` is the handler-level
400 for `price <= 0`; `missingFields` the CreateBooking validation error. -/
inductive SvcError where
  | notFound
  | notPendingAccept
  | notPendingReject
  | conflictAlreadyAccepted
  | notAccepted
  | cancelBadState
  | cancelUnauthorized
  | invalidPrice
  | missingFields
deriving DecidableEq, Repr

/-- The errors the spec taxonomy classifies as `InvalidState`
(illegal lifecycle transition). -/
def isInvalidState (e : SvcError) : Prop :=
  e = SvcError.notPendingAccept ∨ e = SvcError.notPendingReject ∨
  e = SvcError.notAccepted ∨ e = SvcError.cancelBadState

/-- `bookingService.CreateBooking` (booking.go): validates the required
fields, then builds a fresh pending document.  Fields the Go code leaves at
their zero value (MowerID, Price, BillingStatus, the transition timestamps)
are the corresponding zero values here.  `newId` stands for the random
`primitive.NewObjectID()`. -/
def CreateBooking (newId customerID : ObjectID)
    (date bookingTime address description : String) (now : Nat) :
    Except SvcError Booking :=
  if date = "" ∨ bookingTime = "" ∨ address = "" then
    Except.error SvcError.missingFields
  else
    Except.ok {
      ID := newId, CustomerID := customerID, MowerID := NilObjectID,
      Date := date, Time := bookingTime, Address := address,
      Description := description, Status := "pending", Price := 0,
      BillingStatus := "", AcceptedTime := none, CompletedTime := none,
      CreatedAt := now, UpdatedAt := now }

/-- `bookingService.AcceptBooking` (booking.go), acting on the fetched
document: status guard, then the stale-assignment conflict guard, then a
`$set` of mowerId, status and updatedAt. -/
def AcceptBooking (b : Booking) (mowerID : ObjectID) (now : Nat) :
    Except SvcError Booking :=
  if b.Status ≠ "pending" then Except.error SvcError.notPendingAccept
  else if b.MowerID ≠ NilObjectID ∧ b.MowerID ≠ mowerID then
    Except.error SvcError.conflictAlreadyAccepted
  else
    Except.ok { b with MowerID := mowerID, Status := "accepted", UpdatedAt := now }

/-- `bookingService.RejectBooking` (booking.go): same guards as accept, then
a `$set` of status and updatedAt only. -/
def RejectBooking (b : Booking) (mowerID : ObjectID) (now : Nat) :
    Except SvcError Booking :=
  if b.Status ≠ "pending" then Except.error SvcError.notPendingReject
  else if b.MowerID ≠ NilObjectID ∧ b.MowerID ≠ mowerID then
    Except.error SvcError.conflictAlreadyAccepted
  else
    Except.ok { b with Status := "rejected", UpdatedAt := now }

/-- `bookingService.CompleteBooking` (booking.go): status guard, then a
`$set` of status, price and updatedAt only. -/
def CompleteBooking (b : Booking) (price : ℚ) (now : Nat) :
    Except SvcError Booking :=
  if b.Status ≠ "accepted" then Except.error SvcError.notAccepted
  else
    Except.ok { b with Status := "completed", Price := price, UpdatedAt := now }

/-- `BookingHandler.CompleteBooking` (booking handlers file), restricted to
its business logic: rejects `price <= 0` with a 400 before delegating to the
service. -/
def CompleteBookingHandler (b : Booking) (price : ℚ) (now : Nat) :
    Except SvcError Booking :=
  if price ≤ 0 then Except.error SvcError.invalidPrice
  else CompleteBooking b price now

/-- `bookingService.CancelBooking` (booking.go): the status guard comes
first, the ownership guard second, then a `$set` of status and updatedAt. -/
def CancelBooking (b : Booking) (customerID : ObjectID) (now : Nat) :
    Except SvcError Booking :=
  if b.Status ≠ "pending" ∧ b.Status ≠ "accepted" then
    Except.error SvcError.cancelBadState
  else if b.CustomerID ≠ customerID then
    Except.error SvcError.cancelUnauthorized
  else
    Except.ok { b with Status := "cancelled", UpdatedAt := now }

/-- The booking store, keyed by ObjectID (the Mongo collection). -/
abbrev Store := ObjectID → Option Booking

/-- One service call against the store: `FindBookingByID` (NotFound when the
document is absent), then the transition, then `UpdateBooking` writing the
updated document back under the same id.  On any error the store is
untouched. -/
def runLifecycle (store : Store) (bookingID : ObjectID)
    (op : Booking → Except SvcError Booking) : Store × Option SvcError :=
  match store bookingID with
  | none => (store, some SvcError.notFound)
  | some b =>
    match op b with
    | Except.error e => (store, some e)
    | Except.ok b' => (fun i => if i = bookingID then some b' else store i, none)

-- Success-characterisation lemmas for the lifecycle operations.

theorem AcceptBooking_ok_iff (b : Booking) (m : ObjectID) (now : Nat) (b' : Booking) :
    AcceptBooking b m now = Except.ok b' ↔
      b.Status = "pending" ∧ (b.MowerID = NilObjectID ∨ b.MowerID = m) ∧
      b' = { b with MowerID := m, Status := "accepted", UpdatedAt := now } := by
  unfold AcceptBooking
  split
  · simp_all
  · split
    · simp_all [not_and_or]
    · simp_all [not_and_or, not_not]
      tauto

theorem RejectBooking_ok_iff (b : Booking) (m : ObjectID) (now : Nat) (b' : Booking) :
    RejectBooking b m now = Except.ok b' ↔
      b.Status = "pending" ∧ (b.MowerID = NilObjectID ∨ b.MowerID = m) ∧
      b' = { b with Status := "rejected", UpdatedAt := now } := by
  unfold RejectBooking
  split
  · simp_all
  · split
    · simp_all [not_and_or]
    · simp_all [not_and_or, not_not]
      tauto

theorem CompleteBooking_ok_iff (b : Booking) (p : ℚ) (now : Nat) (b' : Booking) :
    CompleteBooking b p now = Except.ok b' ↔
      b.Status = "accepted" ∧
      b' = { b with Status := "completed", Price := p, UpdatedAt := now } := by
  unfold CompleteBooking
  split
  · simp_all
  · simp_all [not_not]
    tauto

theorem CancelBooking_ok_iff (b : Booking) (c : ObjectID) (now : Nat) (b' : Booking) :
    CancelBooking b c now = Except.ok b' ↔
      (b.Status = "pending" ∨ b.Status = "accepted") ∧ b.CustomerID = c ∧
      b' = { b with Status := "cancelled", UpdatedAt := now } := by
  unfold CancelBooking
  split
  · simp_all [not_and_or]
  · split
    · simp_all [not_and_or, not_not]
    · simp_all [not_and_or, not_not]
      tauto

theorem CreateBooking_ok_iff (newId cid : ObjectID) (d t a desc : String)
    (now : Nat) (b : Booking) :
    CreateBooking newId cid d t a desc now = Except.ok b ↔
      ¬(d = "" ∨ t = "" ∨ a = "") ∧
      b = { ID := newId, CustomerID := cid, MowerID := NilObjectID,
            Date := d, Time := t, Address := a, Description := desc,
            Status := "pending", Price := 0, BillingStatus := "",
            AcceptedTime := none, CompletedTime := none,
            CreatedAt := now, UpdatedAt := now } := by
  unfold CreateBooking
  split
  · simp_all
  · simp_all
    tauto

instance {ε α : Type} [DecidableEq ε] [DecidableEq α] :
    DecidableEq (Except ε α) := fun a b =>
  match a, b with
  | Except.error e, Except.error e' =>
    if h : e = e' then isTrue (by rw [h]) else isFalse (by simp [h])
  | Except.error _, Except.ok _ => isFalse (by simp)
  | Except.ok _, Except.error _ => isFalse (by simp)
  | Except.ok x, Except.ok y =>
    if h : x = y then isTrue (by rw [h]) else isFalse (by simp [h])

-- Concrete documents used to instantiate the theorems.

def bkPending : Booking :=
  { ID := 1, CustomerID := 2, MowerID := NilObjectID,
    Date := "2024-05-01", Time := "10:00", Address := "1 Main St",
    Description := "", Status := "pending", Price := 0, BillingStatus := "",
    AcceptedTime := none, CompletedTime := none, CreatedAt := 0, UpdatedAt := 0 }

def bkAccepted : Booking :=
  { bkPending with MowerID := 7, Status := "accepted", UpdatedAt := 1 }

def bkDone : Booking :=
  { bkAccepted with Status := "completed", Price := 50, UpdatedAt := 9 }

def bkCancelled : Booking :=
  { bkAccepted with Status := "cancelled", UpdatedAt := 2 }

example : CreateBooking 1 2 "2024-05-01" "10:00" "1 Main St" "" 0 =
    Except.ok bkPending := by decide

example : AcceptBooking bkPending 7 1 = Except.ok bkAccepted := by decide

example : CompleteBookingHandler bkAccepted 50 9 = Except.ok bkDone := by decide

example : CancelBooking bkAccepted 2 2 = Except.ok bkCancelled := by decide

example : CancelBooking bkDone 9 4 = Except.error SvcError.cancelBadState := by decide

def store1 : Store := fun i => if i = 1 then some bkDone else none

/-- C1: booking status moves only along pending → {accepted, rejected,
cancelled} and accepted → {completed, cancelled}; completed, cancelled and
rejected are terminal; a lifecycle operation invoked from a status without
the required edge fails with an InvalidState error and leaves the stored
document unchanged. -/
theorem booking_lifecycle_edges (store : Store) (bid m c : ObjectID) (p : ℚ)
    (now : Nat) (b b' : Booking) :
    (AcceptBooking b m now = Except.ok b' →
      b.Status = "pending" ∧ b'.Status = "accepted") ∧
    (RejectBooking b m now = Except.ok b' →
      b.Status = "pending" ∧ b'.Status = "rejected") ∧
    (CompleteBooking b p now = Except.ok b' →
      b.Status = "accepted" ∧ b'.Status = "completed") ∧
    (CancelBooking b c now = Except.ok b' →
      (b.Status = "pending" ∨ b.Status = "accepted") ∧ b'.Status = "cancelled") ∧
    (store bid = some b → b.Status ≠ "pending" →
      isInvalidState SvcError.notPendingAccept ∧
      runLifecycle store bid (fun x => AcceptBooking x m now) =
        (store, some SvcError.notPendingAccept)) ∧
    (store bid = some b → b.Status ≠ "pending" →
      isInvalidState SvcError.notPendingReject ∧
      runLifecycle store bid (fun x => RejectBooking x m now) =
        (store, some SvcError.notPendingReject)) ∧
    (store bid = some b → b.Status ≠ "accepted" →
      isInvalidState SvcError.notAccepted ∧
      runLifecycle store bid (fun x => CompleteBooking x p now) =
        (store, some SvcError.notAccepted)) ∧
    (store bid = some b → b.Status ≠ "pending" → b.Status ≠ "accepted" →
      isInvalidState SvcError.cancelBadState ∧
      runLifecycle store bid (fun x => CancelBooking x c now) =
        (store, some SvcError.cancelBadState)) := by
  refine ⟨?_, ?_, ?_, ?_, ?_, ?_, ?_, ?_⟩
  · intro h
    rw [AcceptBooking_ok_iff] at h
    obtain ⟨h1, -, h3⟩ := h
    subst h3
    exact ⟨h1, rfl⟩
  · intro h
    rw [RejectBooking_ok_iff] at h
    obtain ⟨h1, -, h3⟩ := h
    subst h3
    exact ⟨h1, rfl⟩
  · intro h
    rw [CompleteBooking_ok_iff] at h
    obtain ⟨h1, h3⟩ := h
    subst h3
    exact ⟨h1, rfl⟩
  · intro h
    rw [CancelBooking_ok_iff] at h
    obtain ⟨h1, -, h3⟩ := h
    subst h3
    exact ⟨h1, rfl⟩
  · intro hs hst
    exact ⟨Or.inl rfl, by simp [runLifecycle, hs, AcceptBooking, hst]⟩
  · intro hs hst
    exact ⟨Or.inr (Or.inl rfl), by simp [runLifecycle, hs, RejectBooking, hst]⟩
  · intro hs hst
    exact ⟨Or.inr (Or.inr (Or.inl rfl)),
      by simp [runLifecycle, hs, CompleteBooking, hst]⟩
  · intro hs hst1 hst2
    exact ⟨Or.inr (Or.inr (Or.inr rfl)),
      by simp [runLifecycle, hs, CancelBooking, hst1, hst2]⟩

/-- Witness for C1: accepting a completed booking is refused as an illegal
transition and the store is untouched. -/
theorem booking_lifecycle_edges_witness :
    isInvalidState SvcError.notPendingAccept ∧
    runLifecycle store1 1 (fun x => AcceptBooking x 7 3) =
      (store1, some SvcError.notPendingAccept) :=
  (booking_lifecycle_edges store1 1 7 9 50 3 bkDone bkDone).2.2.2.2.1 rfl
    (by decide)

/-- C2 counterexample: a successful AcceptBooking does not write
acceptedTime — the claim says acceptedTime=now on success, but the `$set`
document in booking.go only names mowerId, status and updatedAt. -/
theorem AcceptBooking_acceptedTime_cex :
    AcceptBooking bkPending 7 1 = Except.ok bkAccepted ∧
    bkAccepted.AcceptedTime ≠ some 1 := by decide

/-- C2 (amended): AcceptBooking fails with InvalidState when status is not
pending; otherwise fails with Conflict when mowerID is already set to a
different mower; on success it sets status=accepted, mowerID to the caller
and updatedAt=now, leaving acceptedTime (and every other field)
unchanged. -/
theorem AcceptBooking_contract (b : Booking) (m : ObjectID) (now : Nat) :
    (b.Status ≠ "pending" →
      AcceptBooking b m now = Except.error SvcError.notPendingAccept) ∧
    (b.Status = "pending" → b.MowerID ≠ NilObjectID → b.MowerID ≠ m →
      AcceptBooking b m now = Except.error SvcError.conflictAlreadyAccepted) ∧
    (b.Status = "pending" → (b.MowerID = NilObjectID ∨ b.MowerID = m) →
      AcceptBooking b m now =
        Except.ok { b with MowerID := m, Status := "accepted", UpdatedAt := now }) := by
  refine ⟨?_, ?_, ?_⟩
  · intro h
    simp [AcceptBooking, h]
  · intro h1 h2 h3
    simp [AcceptBooking, h1, h2, h3]
  · intro h1 h2
    rw [AcceptBooking_ok_iff]
    exact ⟨h1, h2, rfl⟩

/-- Witness for C2's amended contract at a concrete pending booking. -/
theorem AcceptBooking_contract_witness :
    AcceptBooking bkPending 7 1 = Except.ok bkAccepted :=
  (AcceptBooking_contract bkPending 7 1).2.2 rfl (Or.inl rfl)

/-- C3 counterexample: completing an accepted booking with a positive price
succeeds but writes neither billingStatus="paid" nor completedTime — the
`$set` document in booking.go only names status, price and updatedAt. -/
theorem CompleteBooking_billing_cex :
    CompleteBookingHandler bkAccepted 50 9 = Except.ok bkDone ∧
    bkDone.BillingStatus ≠ "paid" ∧ bkDone.CompletedTime ≠ some 9 := by decide

/-- C3 (amended): the complete endpoint fails with InvalidInput for every
price ≤ 0, fails with InvalidState when the status is not accepted, and on
success sets status=completed, price and updatedAt=now, leaving
billingStatus and completedTime (and every other field) unchanged. -/
theorem CompleteBooking_contract (b : Booking) (p : ℚ) (now : Nat) :
    (p ≤ 0 →
      CompleteBookingHandler b p now = Except.error SvcError.invalidPrice) ∧
    (0 < p → b.Status ≠ "accepted" →
      CompleteBookingHandler b p now = Except.error SvcError.notAccepted) ∧
    (0 < p → b.Status = "accepted" →
      CompleteBookingHandler b p now =
        Except.ok { b with Status := "completed", Price := p, UpdatedAt := now }) := by
  refine ⟨?_, ?_, ?_⟩
  · intro h
    simp [CompleteBookingHandler, h]
  · intro hp hs
    simp [CompleteBookingHandler, not_le.mpr hp, CompleteBooking, hs]
  · intro hp hs
    simp [CompleteBookingHandler, not_le.mpr hp, CompleteBooking, hs]

/-- Witness for C3's amended contract at a concrete accepted booking. -/
theorem CompleteBooking_contract_witness :
    CompleteBookingHandler bkAccepted 50 9 = Except.ok bkDone :=
  (CompleteBooking_contract bkAccepted 50 9).2.2 (by decide) rfl

/-- C4 counterexample: a non-owner cancelling a completed booking gets the
InvalidState error, not Forbidden — CancelBooking in booking.go checks the
status before the ownership guard, so the claim's "Forbidden for every
state" is false on terminal states. -/
theorem CancelBooking_forbidden_cex :
    bkDone.CustomerID ≠ 9 ∧
    CancelBooking bkDone 9 4 = Except.error SvcError.cancelBadState ∧
    SvcError.cancelBadState ≠ SvcError.cancelUnauthorized := by decide

/-- C4 (amended): CancelBooking fails with InvalidState whenever the status
is outside {pending, accepted}, regardless of the caller; for a booking in
{pending, accepted} it fails with Forbidden when the caller is not the
owning customer, and for the owner it succeeds, setting status=cancelled
and updatedAt=now. -/
theorem CancelBooking_contract (b : Booking) (c : ObjectID) (now : Nat) :
    (b.Status ≠ "pending" → b.Status ≠ "accepted" →
      CancelBooking b c now = Except.error SvcError.cancelBadState) ∧
    ((b.Status = "pending" ∨ b.Status = "accepted") → b.CustomerID ≠ c →
      CancelBooking b c now = Except.error SvcError.cancelUnauthorized) ∧
    ((b.Status = "pending" ∨ b.Status = "accepted") → b.CustomerID = c →
      CancelBooking b c now =
        Except.ok { b with Status := "cancelled", UpdatedAt := now }) := by
  refine ⟨?_, ?_, ?_⟩
  · intro h1 h2
    simp [CancelBooking, h1, h2]
  · intro h1 h2
    rcases h1 with h | h <;> simp [CancelBooking, h, h2]
  · intro h1 h2
    rw [CancelBooking_ok_iff]
    exact ⟨h1, h2, rfl⟩

/-- Witness for C4's amended contract: the owning customer cancels an
accepted booking. -/
theorem CancelBooking_contract_witness :
    CancelBooking bkAccepted 2 2 = Except.ok bkCancelled :=
  (CancelBooking_contract bkAccepted 2 2).2.2 (Or.inr rfl) rfl

/-- C10: each transition writes only the fields named in its `$set`
document: Accept writes mowerId/status/updatedAt, Reject and Cancel write
status/updatedAt, Complete writes status/price/updatedAt; every other field
of the document is unchanged. -/
theorem lifecycle_frame (b b' : Booking) (m c : ObjectID) (p : ℚ) (now : Nat) :
    (AcceptBooking b m now = Except.ok b' →
      b'.ID = b.ID ∧ b'.CustomerID = b.CustomerID ∧ b'.Date = b.Date ∧
      b'.Time = b.Time ∧ b'.Address = b.Address ∧
      b'.Description = b.Description ∧ b'.Price = b.Price ∧
      b'.BillingStatus = b.BillingStatus ∧ b'.AcceptedTime = b.AcceptedTime ∧
      b'.CompletedTime = b.CompletedTime ∧ b'.CreatedAt = b.CreatedAt) ∧
    (RejectBooking b m now = Except.ok b' →
      b'.ID = b.ID ∧ b'.CustomerID = b.CustomerID ∧ b'.MowerID = b.MowerID ∧
      b'.Date = b.Date ∧ b'.Time = b.Time ∧ b'.Address = b.Address ∧
      b'.Description = b.Description ∧ b'.Price = b.Price ∧
      b'.BillingStatus = b.BillingStatus ∧ b'.AcceptedTime = b.AcceptedTime ∧
      b'.CompletedTime = b.CompletedTime ∧ b'.CreatedAt = b.CreatedAt) ∧
    (CompleteBooking b p now = Except.ok b' →
      b'.ID = b.ID ∧ b'.CustomerID = b.CustomerID ∧ b'.MowerID = b.MowerID ∧
      b'.Date = b.Date ∧ b'.Time = b.Time ∧ b'.Address = b.Address ∧
      b'.Description = b.Description ∧ b'.BillingStatus = b.BillingStatus ∧
      b'.AcceptedTime = b.AcceptedTime ∧ b'.CompletedTime = b.CompletedTime ∧
      b'.CreatedAt = b.CreatedAt) ∧
    (CancelBooking b c now = Except.ok b' →
      b'.ID = b.ID ∧ b'.CustomerID = b.CustomerID ∧ b'.MowerID = b.MowerID ∧
      b'.Date = b.Date ∧ b'.Time = b.Time ∧ b'.Address = b.Address ∧
      b'.Description = b.Description ∧ b'.Price = b.Price ∧
      b'.BillingStatus = b.BillingStatus ∧ b'.AcceptedTime = b.AcceptedTime ∧
      b'.CompletedTime = b.CompletedTime ∧ b'.CreatedAt = b.CreatedAt) := by
  refine ⟨?_, ?_, ?_, ?_⟩
  · intro h
    rw [AcceptBooking_ok_iff] at h
    obtain ⟨-, -, h3⟩ := h
    subst h3
    exact ⟨rfl, rfl, rfl, rfl, rfl, rfl, rfl, rfl, rfl, rfl, rfl⟩
  · intro h
    rw [RejectBooking_ok_iff] at h
    obtain ⟨-, -, h3⟩ := h
    subst h3
    exact ⟨rfl, rfl, rfl, rfl, rfl, rfl, rfl, rfl, rfl, rfl, rfl, rfl⟩
  · intro h
    rw [CompleteBooking_ok_iff] at h
    obtain ⟨-, h3⟩ := h
    subst h3
    exact ⟨rfl, rfl, rfl, rfl, rfl, rfl, rfl, rfl, rfl, rfl, rfl⟩
  · intro h
    rw [CancelBooking_ok_iff] at h
    obtain ⟨-, -, h3⟩ := h
    subst h3
    exact ⟨rfl, rfl, rfl, rfl, rfl, rfl, rfl, rfl, rfl, rfl, rfl, rfl⟩

/-- Witness for C10 on a concrete accept transition. -/
theorem lifecycle_frame_witness :
    bkAccepted.CustomerID = bkPending.CustomerID ∧
    bkAccepted.AcceptedTime = bkPending.AcceptedTime := by
  have h := (lifecycle_frame bkPending bkAccepted 7 2 50 1).1 (by decide)
  exact ⟨h.2.1, h.2.2.2.2.2.2.2.2.1⟩

/-- The bookings producible through the lifecycle operations.  The accept
step carries the side condition that the accepting mower's ObjectID is not
the nil ObjectID: the mower ID is the authenticated caller's document ID and
`primitive.NewObjectID()` never returns the zero ObjectID. -/
inductive Reachable : Booking → Prop where
  | created : ∀ (newId cid : ObjectID) (d t a desc : String) (now : Nat)
      (b : Booking), CreateBooking newId cid d t a desc now = Except.ok b →
      Reachable b
  | accepted : ∀ (b : Booking) (m : ObjectID) (now : Nat) (b' : Booking),
      Reachable b → m ≠ NilObjectID → AcceptBooking b m now = Except.ok b' →
      Reachable b'
  | rejected : ∀ (b : Booking) (m : ObjectID) (now : Nat) (b' : Booking),
      Reachable b → RejectBooking b m now = Except.ok b' → Reachable b'
  | completedStep : ∀ (b : Booking) (p : ℚ) (now : Nat) (b' : Booking),
      Reachable b → CompleteBooking b p now = Except.ok b' → Reachable b'
  | cancelledStep : ∀ (b : Booking) (c : ObjectID) (now : Nat) (b' : Booking),
      Reachable b → CancelBooking b c now = Except.ok b' → Reachable b'

/-- The invariant of the spec's §3, word for word: mowerID is set iff the
status is accepted, ongoing or completed. -/
def specMowerInvariant (b : Booking) : Prop :=
  b.MowerID ≠ NilObjectID ↔
    (b.Status = "accepted" ∨ b.Status = "ongoing" ∨ b.Status = "completed")

/-- The invariant the code actually maintains: a booking in accepted or
completed status has an assigned mower; an assigned mower implies the status
is accepted, completed or cancelled (cancelling an accepted booking keeps
the mower); a positive price occurs only on completed bookings. -/
def lifecycleInvariant (b : Booking) : Prop :=
  (b.Status = "accepted" ∨ b.Status = "completed" → b.MowerID ≠ NilObjectID) ∧
  (b.MowerID ≠ NilObjectID →
    b.Status = "accepted" ∨ b.Status = "completed" ∨ b.Status = "cancelled") ∧
  (0 < b.Price → b.Status = "completed")

/-- C5 counterexample: the spec's mowerID-iff-status invariant is violated
by a reachable booking — create, accept by mower 7, then cancel by the
owning customer leaves mowerID = 7 on a cancelled booking. -/
theorem lifecycleInvariant_cex :
    Reachable bkCancelled ∧ ¬ specMowerInvariant bkCancelled := by
  constructor
  · exact Reachable.cancelledStep bkAccepted 2 2 bkCancelled
      (Reachable.accepted bkPending 7 1 bkAccepted
        (Reachable.created 1 2 "2024-05-01" "10:00" "1 Main St" "" 0
          bkPending (by decide))
        (by decide) (by decide))
      (by decide)
  · unfold specMowerInvariant
    decide

/-- C5 (amended): every reachable booking satisfies: status accepted or
completed implies mowerID set; mowerID set implies status accepted,
completed or cancelled; price > 0 only when completed.  customerID is
preserved by every lifecycle transition. -/
theorem reachable_lifecycleInvariant :
    (∀ b : Booking, Reachable b → lifecycleInvariant b) ∧
    (∀ (b : Booking) (m : ObjectID) (now : Nat) (b' : Booking),
      AcceptBooking b m now = Except.ok b' → b'.CustomerID = b.CustomerID) ∧
    (∀ (b : Booking) (m : ObjectID) (now : Nat) (b' : Booking),
      RejectBooking b m now = Except.ok b' → b'.CustomerID = b.CustomerID) ∧
    (∀ (b : Booking) (p : ℚ) (now : Nat) (b' : Booking),
      CompleteBooking b p now = Except.ok b' → b'.CustomerID = b.CustomerID) ∧
    (∀ (b : Booking) (c : ObjectID) (now : Nat) (b' : Booking),
      CancelBooking b c now = Except.ok b' → b'.CustomerID = b.CustomerID) := by
  refine ⟨?_, ?_, ?_, ?_, ?_⟩
  · intro b hb
    induction hb with
    | created newId cid d t a desc now b h =>
      rw [CreateBooking_ok_iff] at h
      obtain ⟨-, h2⟩ := h
      subst h2
      refine ⟨?_, ?_, ?_⟩ <;> simp [NilObjectID]
    | accepted b m now b' _ hm h ih =>
      rw [AcceptBooking_ok_iff] at h
      obtain ⟨hpend, -, h3⟩ := h
      subst h3
      obtain ⟨-, -, ih3⟩ := ih
      refine ⟨fun _ => hm, fun _ => Or.inl rfl, ?_⟩
      intro hp
      have := ih3 hp
      rw [hpend] at this
      exact absurd this (by simp)
    | rejected b m now b' _ h ih =>
      rw [RejectBooking_ok_iff] at h
      obtain ⟨hpend, -, h3⟩ := h
      subst h3
      obtain ⟨-, ih2, ih3⟩ := ih
      refine ⟨?_, ?_, ?_⟩
      · intro hc
        exact absurd hc (by simp)
      · intro hmow
        rcases ih2 hmow with h | h | h <;> rw [hpend] at h <;>
          exact absurd h (by simp)
      · intro hp
        have := ih3 hp
        rw [hpend] at this
        exact absurd this (by simp)
    | completedStep b p now b' _ h ih =>
      rw [CompleteBooking_ok_iff] at h
      obtain ⟨hacc, h3⟩ := h
      subst h3
      obtain ⟨ih1, -, -⟩ := ih
      exact ⟨fun _ => ih1 (Or.inl hacc), fun _ => Or.inr (Or.inl rfl),
        fun _ => rfl⟩
    | cancelledStep b c now b' _ h ih =>
      rw [CancelBooking_ok_iff] at h
      obtain ⟨hst, -, h3⟩ := h
      subst h3
      obtain ⟨-, -, ih3⟩ := ih
      refine ⟨?_, fun _ => Or.inr (Or.inr rfl), ?_⟩
      · intro hc
        exact absurd hc (by simp)
      · intro hp
        have := ih3 hp
        rcases hst with h | h <;> rw [h] at this <;>
          exact absurd this (by simp)
  · intro b m now b' h
    rw [AcceptBooking_ok_iff] at h
    obtain ⟨-, -, h3⟩ := h
    subst h3
    rfl
  · intro b m now b' h
    rw [RejectBooking_ok_iff] at h
    obtain ⟨-, -, h3⟩ := h
    subst h3
    rfl
  · intro b p now b' h
    rw [CompleteBooking_ok_iff] at h
    obtain ⟨-, h3⟩ := h
    subst h3
    rfl
  · intro b c now b' h
    rw [CancelBooking_ok_iff] at h
    obtain ⟨-, -, h3⟩ := h
    subst h3
    rfl

/-- Witness for C5's amended invariant on a concrete reachable booking. -/
theorem reachable_lifecycleInvariant_witness : lifecycleInvariant bkAccepted :=
  reachable_lifecycleInvariant.1 bkAccepted
    (Reachable.accepted bkPending 7 1 bkAccepted
      (Reachable.created 1 2 "2024-05-01" "10:00" "1 Main St" "" 0 bkPending
        (by decide))
      (by decide) (by decide))

/-- C6 counterexample: once a booking has been accepted (status accepted,
mowerID = 7), a second, different mower's AcceptBooking fails with the
not-pending InvalidState error, not with the Conflict error. -/
theorem accept_conflict_cex :
    bkAccepted.MowerID = 7 ∧ bkAccepted.Status = "accepted" ∧
    AcceptBooking bkAccepted 8 3 = Except.error SvcError.notPendingAccept ∧
    SvcError.notPendingAccept ≠ SvcError.conflictAlreadyAccepted := by decide

/-- C6 (amended): after any successful accept, a repeated AcceptBooking — by
the same or by a different mower — fails with InvalidState, never with
Conflict; the Conflict error arises exactly when the status is still
pending but mowerID is already set to a different mower. -/
theorem AcceptBooking_conflict_semantics (b b' : Booking) (m m' : ObjectID)
    (now now' : Nat) :
    (AcceptBooking b m now = Except.ok b' →
      AcceptBooking b' m' now' = Except.error SvcError.notPendingAccept) ∧
    (AcceptBooking b m now = Except.error SvcError.conflictAlreadyAccepted ↔
      b.Status = "pending" ∧ b.MowerID ≠ NilObjectID ∧ b.MowerID ≠ m) := by
  constructor
  · intro h
    rw [AcceptBooking_ok_iff] at h
    obtain ⟨-, -, h3⟩ := h
    subst h3
    simp [AcceptBooking]
  · unfold AcceptBooking
    split
    · simp_all
    · split
      · simp_all [not_not]
      · simp_all [not_and_or, not_not]
        intro h
        tauto

/-- Witness for C6: mower 7 accepts, then mower 8 retries and gets the
InvalidState error. -/
theorem AcceptBooking_conflict_semantics_witness :
    AcceptBooking bkAccepted 8 3 = Except.error SvcError.notPendingAccept :=
  (AcceptBooking_conflict_semantics bkPending bkAccepted 7 8 1 3).1 (by decide)

-- Token issuer and authorization gate.

/-- The JWT claims minted by `authService.Login` (auth.go): user ID, role,
and the registered expiry / issued-at timestamps. -/
structure Claims where
  UserID : ObjectID
  Role : String
  ExpiresAt : Nat
  IssuedAt : Nat
deriving DecidableEq, Repr

/-- Modelled from the spec: stands for the HMAC-SHA256 signature the jwt
library computes over the claims with the signing key — an injective keyed
tag, since the spec treats signatures as unforgeable. -/
def hmacTag (key : Nat) (c : Claims) : Nat × Claims := (key, c)

/-- A signed token: the claims plus the signature over them. -/
structure SignedToken where
  claims : Claims
  sig : Nat × Claims
deriving DecidableEq, Repr

/-- The fixed validity window: `time.Now().Add(24 * time.Hour)` in
auth.go's Login, in seconds. -/
def tokenValidityWindow : Nat := 24 * 60 * 60

/-- The token-minting portion of `authService.Login` (auth.go): claims
carrying the user's ID and role, expiring a fixed window after issuance,
signed with the process-wide key. -/
def IssueToken (key : Nat) (userID : ObjectID) (role : String) (now : Nat) :
    SignedToken :=
  let c : Claims := { UserID := userID, Role := role,
                      ExpiresAt := now + tokenValidityWindow, IssuedAt := now }
  { claims := c, sig := hmacTag key c }

inductive VerifyOutcome where
  | valid (userID : ObjectID) (role : String)
  | invalidSignature
  | expired
deriving DecidableEq, Repr

/-- Modelled from the spec: `jwt.ParseWithClaims` lives in the third-party
jwt library; per the spec's Token Issuer contract it checks the signature,
then the expiry, and otherwise yields the embedded (userID, role). -/
def VerifyToken (key now : Nat) (t : SignedToken) : VerifyOutcome :=
  if t.sig ≠ hmacTag key t.claims then VerifyOutcome.invalidSignature
  else if t.claims.ExpiresAt < now then VerifyOutcome.expired
  else VerifyOutcome.valid t.claims.UserID t.claims.Role

/-- C7: issuing a token and verifying it with the same key returns the same
(userID, role) strictly before the 24-hour window elapses, and Expired
strictly after it elapses. -/
theorem token_issue_verify_roundtrip (key userID : Nat) (role : String)
    (t0 t1 : Nat) :
    (t1 < t0 + tokenValidityWindow →
      VerifyToken key t1 (IssueToken key userID role t0) =
        VerifyOutcome.valid userID role) ∧
    (t0 + tokenValidityWindow < t1 →
      VerifyToken key t1 (IssueToken key userID role t0) =
        VerifyOutcome.expired) := by
  constructor
  · intro h
    have hnl : ¬ (t0 + tokenValidityWindow < t1) := by omega
    simp [VerifyToken, IssueToken, hmacTag, hnl]
  · intro h
    simp [VerifyToken, IssueToken, hmacTag, h]

/-- Witness for C7 at a concrete key, identity and clock. -/
theorem token_issue_verify_roundtrip_witness :
    VerifyToken 3 10 (IssueToken 3 5 "mower" 0) =
      VerifyOutcome.valid 5 "mower" ∧
    VerifyToken 3 100000 (IssueToken 3 5 "mower" 0) = VerifyOutcome.expired :=
  ⟨(token_issue_verify_roundtrip 3 5 "mower" 0 10).1 (by decide),
   (token_issue_verify_roundtrip 3 5 "mower" 0 100000).2 (by decide)⟩

/-- `strings.Split(s, " ")` from the Go standard library, as used by the
auth middleware on the Authorization header. -/
def splitAux : List Char → List Char → List String
  | [], acc => [String.mk acc.reverse]
  | c :: cs, acc =>
    if c = ' ' then String.mk acc.reverse :: splitAux cs []
    else splitAux cs (c :: acc)

def stringsSplit (s : String) : List String := splitAux s.toList []

/-- `strings.ToLower` restricted to what the middleware compares
("Bearer"): ASCII lower-casing. -/
def stringsToLower (s : String) : String :=
  String.mk (s.toList.map Char.toLower)

example : stringsSplit "Bearer good" = ["Bearer", "good"] := by decide

example : stringsToLower "BeArEr" = "bearer" := by decide

/-- An inbound HTTP request, reduced to what the gate reads: the
Authorization header ("" models an absent header, as `r.Header.Get`
returns "") and the body, which the gate never reads. -/
structure HttpRequest where
  authHeader : String
  body : String
deriving DecidableEq, Repr

inductive AuthReason where
  | missingHeader
  | malformedHeader
  | invalidSignature
  | invalidToken
deriving DecidableEq, Repr

inductive AuthResult where
  | unauthenticated (reason : AuthReason)
  | authenticated (userID : ObjectID) (role : String)
deriving DecidableEq, Repr

/-- `AuthMiddleware` (handlers): missing header, then header shape, then
token parse+verify; on success the claims' user ID and role are put into
the request context.  `decode` stands for the jwt wire-format parser; none
models a malformed token string.  Per the Go error handling, a signature
failure gets its own message while expiry and malformed tokens share the
generic invalid-token rejection; all are 401s. -/
def AuthMiddleware (decode : String → Option SignedToken) (key now : Nat)
    (req : HttpRequest) : AuthResult :=
  if req.authHeader = "" then
    AuthResult.unauthenticated AuthReason.missingHeader
  else
    let parts := stringsSplit req.authHeader
    if parts.length = 2 ∧ stringsToLower parts[0]! = "bearer" then
      match decode parts[1]! with
      | none => AuthResult.unauthenticated AuthReason.invalidToken
      | some tok =>
        match VerifyToken key now tok with
        | VerifyOutcome.invalidSignature =>
          AuthResult.unauthenticated AuthReason.invalidSignature
        | VerifyOutcome.expired =>
          AuthResult.unauthenticated AuthReason.invalidToken
        | VerifyOutcome.valid uid role => AuthResult.authenticated uid role
    else AuthResult.unauthenticated AuthReason.malformedHeader

/-- `RoleMiddleware` (handlers): reads the role from the request context
(none models a missing context value) and passes the request through only
when it equals the required role. -/
def RoleMiddleware (requiredRole : String) (ctxRole : Option String) : Bool :=
  match ctxRole with
  | none => false
  | some r => r == requiredRole

inductive GateOutcome where
  | unauthenticated (reason : AuthReason)
  | forbidden
  | handled (userID : ObjectID) (role : String)
deriving DecidableEq, Repr

/-- A role-protected route as mounted in main.go: AuthMiddleware, then
RoleMiddleware over the context role it attached, then the handler, which
receives the context identity. -/
def ProtectedRoute (decode : String → Option SignedToken) (key now : Nat)
    (requiredRole : String) (req : HttpRequest) : GateOutcome :=
  match AuthMiddleware decode key now req with
  | AuthResult.unauthenticated r => GateOutcome.unauthenticated r
  | AuthResult.authenticated uid role =>
    if RoleMiddleware requiredRole (some role) then GateOutcome.handled uid role
    else GateOutcome.forbidden

/-- C8: a missing or malformed Authorization header, an undecodable token,
a bad signature or an expired token is rejected 401 before the handler; a
verified token with the wrong role is rejected 403; otherwise the handler
runs with the user ID and role taken from the verified token; and the
whole gate never reads the request body. -/
theorem ProtectedRoute_contract (decode : String → Option SignedToken)
    (key now : Nat) (requiredRole : String) (req : HttpRequest)
    (tok : SignedToken) :
    (req.authHeader = "" →
      ProtectedRoute decode key now requiredRole req =
        GateOutcome.unauthenticated AuthReason.missingHeader) ∧
    (req.authHeader ≠ "" →
      ¬((stringsSplit req.authHeader).length = 2 ∧
        stringsToLower (stringsSplit req.authHeader)[0]! = "bearer") →
      ProtectedRoute decode key now requiredRole req =
        GateOutcome.unauthenticated AuthReason.malformedHeader) ∧
    (req.authHeader ≠ "" →
      ((stringsSplit req.authHeader).length = 2 ∧
        stringsToLower (stringsSplit req.authHeader)[0]! = "bearer") →
      decode (stringsSplit req.authHeader)[1]! = none →
      ProtectedRoute decode key now requiredRole req =
        GateOutcome.unauthenticated AuthReason.invalidToken) ∧
    (req.authHeader ≠ "" →
      ((stringsSplit req.authHeader).length = 2 ∧
        stringsToLower (stringsSplit req.authHeader)[0]! = "bearer") →
      decode (stringsSplit req.authHeader)[1]! = some tok →
      tok.sig ≠ hmacTag key tok.claims →
      ProtectedRoute decode key now requiredRole req =
        GateOutcome.unauthenticated AuthReason.invalidSignature) ∧
    (req.authHeader ≠ "" →
      ((stringsSplit req.authHeader).length = 2 ∧
        stringsToLower (stringsSplit req.authHeader)[0]! = "bearer") →
      decode (stringsSplit req.authHeader)[1]! = some tok →
      tok.sig = hmacTag key tok.claims → tok.claims.ExpiresAt < now →
      ProtectedRoute decode key now requiredRole req =
        GateOutcome.unauthenticated AuthReason.invalidToken) ∧
    (req.authHeader ≠ "" →
      ((stringsSplit req.authHeader).length = 2 ∧
        stringsToLower (stringsSplit req.authHeader)[0]! = "bearer") →
      decode (stringsSplit req.authHeader)[1]! = some tok →
      tok.sig = hmacTag key tok.claims → ¬ tok.claims.ExpiresAt < now →
      tok.claims.Role ≠ requiredRole →
      ProtectedRoute decode key now requiredRole req =
        GateOutcome.forbidden) ∧
    (req.authHeader ≠ "" →
      ((stringsSplit req.authHeader).length = 2 ∧
        stringsToLower (stringsSplit req.authHeader)[0]! = "bearer") →
      decode (stringsSplit req.authHeader)[1]! = some tok →
      tok.sig = hmacTag key tok.claims → ¬ tok.claims.ExpiresAt < now →
      tok.claims.Role = requiredRole →
      ProtectedRoute decode key now requiredRole req =
        GateOutcome.handled tok.claims.UserID tok.claims.Role) ∧
    (∀ body' : String,
      ProtectedRoute decode key now requiredRole { req with body := body' } =
        ProtectedRoute decode key now requiredRole req) := by
  refine ⟨?_, ?_, ?_, ?_, ?_, ?_, ?_, ?_⟩
  · intro h
    simp [ProtectedRoute, AuthMiddleware, h]
  · intro h1 h2
    simp [ProtectedRoute, AuthMiddleware, h1, h2]
  · intro h1 h2 h3
    simp [ProtectedRoute, AuthMiddleware, h1, h2, h3]
  · intro h1 h2 h3 h4
    simp [ProtectedRoute, AuthMiddleware, h1, h2, h3, VerifyToken, h4]
  · intro h1 h2 h3 h4 h5
    simp [ProtectedRoute, AuthMiddleware, h1, h2, h3, VerifyToken, h4, h5]
  · intro h1 h2 h3 h4 h5 h6
    simp [ProtectedRoute, AuthMiddleware, h1, h2, h3, VerifyToken, h4, h5,
      RoleMiddleware, h6]
  · intro h1 h2 h3 h4 h5 h6
    simp [ProtectedRoute, AuthMiddleware, h1, h2, h3, VerifyToken, h4, h5,
      RoleMiddleware, h6]
  · intro b'
    rfl

def tokGood : SignedToken := IssueToken 3 5 "mower" 0

def decodeTok : String → Option SignedToken :=
  fun s => if s = "good" then some tokGood else none

def reqGood : HttpRequest := { authHeader := "Bearer good", body := "" }

/-- Witness for C8: a well-formed bearer header with a fresh, correctly
signed mower token reaches the handler with the token's identity. -/
theorem ProtectedRoute_contract_witness :
    ProtectedRoute decodeTok 3 10 "mower" reqGood =
      GateOutcome.handled 5 "mower" :=
  (ProtectedRoute_contract decodeTok 3 10 "mower" reqGood
      tokGood).2.2.2.2.2.2.1
    (by decide) (by decide) (by decide) (by decide) (by decide) (by decide)

-- Forgot-password endpoint.

/-- The JSON response envelope of the handlers, reduced to the fields the
claims compare (the data payload of both responses here is nil). -/
structure ApiResponse where
  status : Nat
  success : Bool
  message : String
deriving DecidableEq, Repr

/-- Modelled from the spec: `AuthService.ForgotPassword` is not under src/
(only its handler is).  Per the spec it looks the user up by email in the
credential store and dispatches a reset email, failing when the email is
unknown. -/
def ForgotPasswordService (userExists : String → Bool) (email : String) :
    Except SvcError Unit :=
  if userExists email then Except.ok () else Except.error SvcError.notFound

/-- `AuthHandler.ForgotPassword`: a body that fails to decode is a 400;
otherwise the service is invoked, any error it returns is only logged, and
the handler always answers with the same 200 success envelope. -/
def ForgotPassword (userExists : String → Bool) (reqBody : Option String) :
    ApiResponse :=
  match reqBody with
  | none => { status := 400, success := false,
              message := "Invalid request payload" }
  | some email =>
    let _ := ForgotPasswordService userExists email
    { status := 200, success := true,
      message := "If a user with that email exists, a password reset link has been sent." }

/-- C9: for every email the forgot-password endpoint answers with the same
200 success response whether or not the email is in the credential store —
two stores differing in the email's presence give identical responses. -/
theorem forgotPassword_no_enumeration (exStore exStore' : String → Bool)
    (email : String) :
    ForgotPassword exStore (some email) = ForgotPassword exStore' (some email) ∧
    (ForgotPassword exStore (some email)).status = 200 ∧
    (ForgotPassword exStore (some email)).success = true :=
  ⟨rfl, rfl, rfl⟩
